import Mathlib

/-!
Shallow embedding of `internal/syncer/git_refs.go` from the mergestat
repository: the `handleGitRefs` sync-job handler, its helper
`sendBatchGitRefs`, the `ref` row struct and the `selectRefs` query.

External collaborators (temp-dir creation, token fetch, clone, the log
sink, the mergestat query engine, and the postgres transaction calls) are
modelled by an `Env` record that fixes the outcome of each call for one
run; the handler itself is translated statement by statement from the Go
source. The durable store is a `DB` record (the `git_refs` table plus the
job's queue status); transactional writes are published only when
`tx.Commit` succeeds, matching the deferred-rollback discipline of the
source. A trace of performed external actions and the list of errors that
are merely logged by the deferred handlers are also returned.
-/

/-- Go `error` values: an external base error, or one wrapped by
`fmt.Errorf("msg: %w", cause)` as on lines 99, 111 and 155 of the source. -/
inductive GoError where
  | base (tag : String)
  | wrapped (msg : String) (cause : GoError)
deriving DecidableEq, Repr

/-- True exactly when the error was produced by a wrapping
`fmt.Errorf("...: %w", err)` rather than returned as-is. -/
def GoError.isWrapped : GoError → Bool
  | .wrapped _ _ => true
  | .base _ => false

/-- Embeds Go `sql.NullString`: a validity flag plus the string payload.
An invalid value scans from SQL NULL and keeps `string = ""`, but the two
fields are independent, as in Go. -/
structure NullString where
  valid : Bool
  string : String
deriving DecidableEq, Repr

/-- Embeds the Go struct `ref` (git_refs.go lines 66-74). The Go field
`Type` is called `refType` here because `Type` is reserved in Lean. -/
structure Ref where
  FullName : NullString
  Hash : NullString
  Name : NullString
  Remote : NullString
  Target : NullString
  refType : NullString
  TagCommitHash : NullString
deriving DecidableEq, Repr

/-- One row produced by the external mergestat table function `refs(?)`,
before the computed column of the `selectRefs` query is added: the raw ref
columns, plus the value the external scalar function `COMMIT_FROM_TAG(tag)`
returns for this row (`none` = SQL NULL, i.e. resolution unavailable). -/
structure RawRef where
  FullName : NullString
  Hash : NullString
  Name : NullString
  Remote : NullString
  Target : NullString
  refType : NullString
  commitFromTag : Option String
deriving DecidableEq, Repr

/-- SQL `COALESCE(COMMIT_FROM_TAG(tag), hash)`: the first non-NULL of the
resolution result and the `hash` column. -/
def sqlCoalesce (a : Option String) (b : NullString) : NullString :=
  match a with
  | some s => ⟨true, s⟩
  | none => b

/-- The computed column of the `selectRefs` query string (git_refs.go line
76): `CASE type WHEN 'tag' THEN COALESCE(COMMIT_FROM_TAG(tag), hash) END`.
SQL semantics: a NULL `type` matches no WHEN arm, and a CASE expression
with no ELSE branch yields NULL when nothing matched. -/
def caseTagCommitHash (ty : NullString) (cft : Option String) (hash : NullString) : NullString :=
  if ty.valid && (ty.string == "tag") then sqlCoalesce cft hash else ⟨false, ""⟩

/-- Evaluation of the `selectRefs` query (git_refs.go line 76) on one raw
row: `SELECT *` keeps every column, and `tag_commit_hash` is the CASE
expression above. -/
def selectRefs (r : RawRef) : Ref :=
  { FullName := r.FullName, Hash := r.Hash, Name := r.Name, Remote := r.Remote,
    Target := r.Target, refType := r.refType,
    TagCommitHash := caseTagCommitHash r.refType r.commitFromTag r.Hash }

/-- One row of the `git_refs` table as sent by `tx.CopyFrom` (git_refs.go
line 60), columns `repo_id, full_name, name, hash, remote, target, type,
tag_commit_hash`; `none` is SQL NULL. The Go column `type` is `refType`. -/
structure GitRefRow where
  repo_id : String
  full_name : String
  name : String
  hash : Option String
  remote : Option String
  target : Option String
  refType : Option String
  tag_commit_hash : Option String
deriving DecidableEq, Repr

/-- The input row built for one ref by the loop body of `sendBatchGitRefs`
(git_refs.go lines 25-57): `repo_id`, `full_name` and `name` are passed
unconditionally as the Go `.String` field; each optional column is passed
as its string when `.Valid` holds and as SQL NULL (`nil` in Go, `none`
here) otherwise. -/
def rowOfRef (repoID : String) (r : Ref) : GitRefRow :=
  { repo_id := repoID
    full_name := r.FullName.string
    name := r.Name.string
    hash := if r.Hash.valid then some r.Hash.string else none
    remote := if r.Remote.valid then some r.Remote.string else none
    target := if r.Target.valid then some r.Target.string else none
    refType := if r.refType.valid then some r.refType.string else none
    tag_commit_hash := if r.TagCommitHash.valid then some r.TagCommitHash.string else none }

/-- The loop of `sendBatchGitRefs` (git_refs.go lines 19-58): for each ref
of the batch, re-parse the job's repo id (`uuid.FromString(j.RepoID.String())`,
whose outcome is the parameter `parse`) and append the built row; the first
parse failure aborts the whole call. An empty batch never runs the loop
body, so it never consults `parse`. -/
def buildInputs (parse : Except GoError String) : List Ref → Except GoError (List GitRefRow)
  | [] => Except.ok []
  | r :: rs =>
    match parse with
    | Except.error e => Except.error e
    | Except.ok repoID =>
      match buildInputs parse rs with
      | Except.error e => Except.error e
      | Except.ok rest => Except.ok (rowOfRef repoID r :: rest)

/-- `sendBatchGitRefs` (git_refs.go lines 17-64): build the input rows,
then `tx.CopyFrom` into `git_refs` (its failure is the parameter
`copyErr`); on success the returned rows are what the transaction has
inserted. -/
def sendBatchGitRefs (parse : Except GoError String) (copyErr : Option GoError)
    (batch : List Ref) : Except GoError (List GitRefRow) :=
  match buildInputs parse batch with
  | Except.error e => Except.error e
  | Except.ok inputs =>
    match copyErr with
    | some e => Except.error e
    | none => Except.ok inputs

/-- The fields of `db.DequeueSyncJobRow` that `handleGitRefs` reads. -/
structure Job where
  id : String
  repoId : String
  repo : String
  syncType : String
deriving DecidableEq, Repr

/-- Durable store state: the contents of the `git_refs` table (all
repositories) and this job's queue status. -/
structure DB where
  gitRefs : List GitRefRow
  jobStatus : String
deriving DecidableEq, Repr

/-- Effect of `DELETE FROM git_refs WHERE repo_id = $1` (git_refs.go line
133): keep only rows of other repositories. -/
def deleteRepoRefs (repoId : String) (rows : List GitRefRow) : List GitRefRow :=
  rows.filter (fun r => !(r.repo_id == repoId))

/-- The stored ref set of one repository. -/
def refsFor (repoId : String) (rows : List GitRefRow) : List GitRefRow :=
  rows.filter (fun r => r.repo_id == repoId)

/-- Externally observable actions of one `handleGitRefs` run, in the order
they are performed. Deferred actions (`rollback`, `freeRepo`, `removeAll`)
run last, in LIFO registration order. -/
inductive Event where
  | mkdirTemp
  | removeAll
  | fetchToken
  | cloneRepo
  | freeRepo
  | logStart
  | selectRefsQuery
  | beginTx
  | txDelete
  | sendBatch
  | setStatus
  | logEnd
  | commit
  | rollback
deriving DecidableEq, Repr

deriving instance DecidableEq for Except

/-- Outcomes of the external collaborator calls for one run. `Except` /
`Option GoError` fields carry the error the corresponding call returns
(`Except.ok` / `none` means the call succeeds). `rollback` is the error
`tx.Rollback` returns when the transaction is still open; once the
transaction was committed (or a commit was attempted) the deferred
rollback returns `pgx.ErrTxClosed`, which line 127 ignores. -/
structure Env where
  mkdirTemp : Except GoError String
  removeAll : Option GoError
  fetchToken : Except GoError String
  cloneRepo : Except GoError Unit
  sendStartLog : Option GoError
  selectRefsResult : Except GoError (List Ref)
  beginTx : Option GoError
  rollback : Option GoError
  parseRepoID : Except GoError String
  deleteExec : Option GoError
  copyFrom : Option GoError
  setSyncJobStatus : Option GoError
  sendEndLog : Option GoError
  commit : Option GoError
deriving DecidableEq, Repr

/-- Result of one `handleGitRefs` run: the Go error returned to the caller
(`none` = nil), the published database state, the errors that the deferred
handlers only log (cleanup and rollback failures, in the order logged),
and the trace of performed actions. -/
structure HandlerResult where
  ret : Option GoError
  db : DB
  warnings : List GoError
  trace : List Event
deriving DecidableEq, Repr

/-- The warning list a deferred handler contributes: its error, when it
fails. -/
def warnList (o : Option GoError) : List GoError :=
  match o with
  | some e => [e]
  | none => []

/-- `handleGitRefs` (git_refs.go lines 78-159), translated statement by
statement. Error returns carry exactly the expression the Go code
returns: the raw error for MkdirTemp, the token fetch, the query, BeginTx,
the DELETE, `sendBatchGitRefs`, `SetSyncJobStatus` and Commit, and a
wrapping for the clone (`fmt.Errorf("git clone: %w", err)`) and for both
log batches (`fmt.Errorf("log messages: %w", err)`). The transaction's
delete, copy and status update touch only transaction-local state; the
published `DB` changes only when `tx.Commit` succeeds, since otherwise the
deferred `tx.Rollback` discards the transaction. -/
def handleGitRefs (env : Env) (j : Job) (db : DB) : HandlerResult :=
  match env.mkdirTemp with
  | Except.error e => { ret := some e, db := db, warnings := [], trace := [Event.mkdirTemp] }
  | Except.ok _tmpPath =>
    match env.fetchToken with
    | Except.error e =>
      { ret := some e, db := db, warnings := warnList env.removeAll,
        trace := [Event.mkdirTemp, Event.fetchToken, Event.removeAll] }
    | Except.ok _ghToken =>
      match env.cloneRepo with
      | Except.error e =>
        { ret := some (GoError.wrapped "git clone" e), db := db,
          warnings := warnList env.removeAll,
          trace := [Event.mkdirTemp, Event.fetchToken, Event.cloneRepo, Event.removeAll] }
      | Except.ok _ =>
        match env.sendStartLog with
        | some e =>
          { ret := some (GoError.wrapped "log messages" e), db := db,
            warnings := warnList env.removeAll,
            trace := [Event.mkdirTemp, Event.fetchToken, Event.cloneRepo, Event.logStart,
                      Event.freeRepo, Event.removeAll] }
        | none =>
          match env.selectRefsResult with
          | Except.error e =>
            { ret := some e, db := db, warnings := warnList env.removeAll,
              trace := [Event.mkdirTemp, Event.fetchToken, Event.cloneRepo, Event.logStart,
                        Event.selectRefsQuery, Event.freeRepo, Event.removeAll] }
          | Except.ok refs =>
            match env.beginTx with
            | some e =>
              { ret := some e, db := db, warnings := warnList env.removeAll,
                trace := [Event.mkdirTemp, Event.fetchToken, Event.cloneRepo, Event.logStart,
                          Event.selectRefsQuery, Event.beginTx, Event.freeRepo, Event.removeAll] }
            | none =>
              match env.deleteExec with
              | some e =>
                { ret := some e, db := db,
                  warnings := warnList env.rollback ++ warnList env.removeAll,
                  trace := [Event.mkdirTemp, Event.fetchToken, Event.cloneRepo, Event.logStart,
                            Event.selectRefsQuery, Event.beginTx, Event.txDelete, Event.rollback,
                            Event.freeRepo, Event.removeAll] }
              | none =>
                match sendBatchGitRefs env.parseRepoID env.copyFrom refs with
                | Except.error e =>
                  { ret := some e, db := db,
                    warnings := warnList env.rollback ++ warnList env.removeAll,
                    trace := [Event.mkdirTemp, Event.fetchToken, Event.cloneRepo, Event.logStart,
                              Event.selectRefsQuery, Event.beginTx, Event.txDelete, Event.sendBatch,
                              Event.rollback, Event.freeRepo, Event.removeAll] }
                | Except.ok rows =>
                  match env.setSyncJobStatus with
                  | some e =>
                    { ret := some e, db := db,
                      warnings := warnList env.rollback ++ warnList env.removeAll,
                      trace := [Event.mkdirTemp, Event.fetchToken, Event.cloneRepo, Event.logStart,
                                Event.selectRefsQuery, Event.beginTx, Event.txDelete,
                                Event.sendBatch, Event.setStatus, Event.rollback,
                                Event.freeRepo, Event.removeAll] }
                  | none =>
                    match env.sendEndLog with
                    | some e =>
                      { ret := some (GoError.wrapped "log messages" e), db := db,
                        warnings := warnList env.rollback ++ warnList env.removeAll,
                        trace := [Event.mkdirTemp, Event.fetchToken, Event.cloneRepo,
                                  Event.logStart, Event.selectRefsQuery, Event.beginTx,
                                  Event.txDelete, Event.sendBatch, Event.setStatus, Event.logEnd,
                                  Event.rollback, Event.freeRepo, Event.removeAll] }
                    | none =>
                      match env.commit with
                      | some e =>
                        { ret := some e, db := db, warnings := warnList env.removeAll,
                          trace := [Event.mkdirTemp, Event.fetchToken, Event.cloneRepo,
                                    Event.logStart, Event.selectRefsQuery, Event.beginTx,
                                    Event.txDelete, Event.sendBatch, Event.setStatus,
                                    Event.logEnd, Event.commit, Event.rollback,
                                    Event.freeRepo, Event.removeAll] }
                      | none =>
                        { ret := none,
                          db := { gitRefs := deleteRepoRefs j.repoId db.gitRefs ++ rows,
                                  jobStatus := "DONE" },
                          warnings := warnList env.removeAll,
                          trace := [Event.mkdirTemp, Event.fetchToken, Event.cloneRepo,
                                    Event.logStart, Event.selectRefsQuery, Event.beginTx,
                                    Event.txDelete, Event.sendBatch, Event.setStatus,
                                    Event.logEnd, Event.commit, Event.rollback,
                                    Event.freeRepo, Event.removeAll] }

/-- With a successful repo-id parse, the loop of `sendBatchGitRefs` builds
exactly one row per ref of the batch, in order. -/
theorem buildInputs_ok (repoID : String) (batch : List Ref) :
    buildInputs (Except.ok repoID) batch = Except.ok (batch.map (rowOfRef repoID)) := by
  induction batch with
  | nil => rfl
  | cons r rs ih => simp [buildInputs, ih]

/-- With a failing repo-id parse, a nonempty batch aborts with that error. -/
theorem buildInputs_error (e : GoError) (r : Ref) (rs : List Ref) :
    buildInputs (Except.error e) (r :: rs) = Except.error e := rfl

/-- A successful `sendBatchGitRefs` call means the row build succeeded with
those very rows and the COPY succeeded. -/
theorem sendBatchGitRefs_ok (parse : Except GoError String) (copyErr : Option GoError)
    (batch : List Ref) (rows : List GitRefRow)
    (h : sendBatchGitRefs parse copyErr batch = Except.ok rows) :
    buildInputs parse batch = Except.ok rows ∧ copyErr = none := by
  unfold sendBatchGitRefs at h
  cases hb : buildInputs parse batch with
  | error e => rw [hb] at h; exact absurd h (by simp)
  | ok inputs =>
    rw [hb] at h
    cases copyErr with
    | some e => exact absurd h (by simp)
    | none =>
      have hir : inputs = rows := by simpa using h
      exact ⟨by rw [hir], rfl⟩

/-- Every row built by the loop carries the parsed repository id. -/
theorem rowOfRef_repo_id (repoID : String) (r : Ref) :
    (rowOfRef repoID r).repo_id = repoID := rfl

/-- After the DELETE of a repository's rows, that repository's stored ref
set is empty. -/
theorem refsFor_deleteRepoRefs (repoId : String) (l : List GitRefRow) :
    refsFor repoId (deleteRepoRefs repoId l) = [] := by
  induction l with
  | nil => rfl
  | cons r rs ih =>
    unfold deleteRepoRefs refsFor at ih ⊢
    by_cases h : r.repo_id = repoId <;> simp [List.filter_cons, h, ih]

/-- `refsFor` distributes over list append. -/
theorem refsFor_append (repoId : String) (a b : List GitRefRow) :
    refsFor repoId (a ++ b) = refsFor repoId a ++ refsFor repoId b := by
  unfold refsFor; exact List.filter_append a b

/-- A list of rows all carrying the repository id is its own ref set. -/
theorem refsFor_self (repoId : String) (rows : List GitRefRow)
    (h : ∀ row ∈ rows, row.repo_id = repoId) : refsFor repoId rows = rows := by
  unfold refsFor
  exact List.filter_eq_self.mpr (fun a ha => by simp [h a ha])

/-- Exhaustive outcome characterization of one `handleGitRefs` run: either
the handler returns a non-nil error and the published database is exactly
the initial one (the deferred rollback discards any transactional work),
or it returns nil, both log sends succeeded, and the database holds the
freshly replaced ref rows with the job marked DONE. -/
theorem handleGitRefs_cases (env : Env) (j : Job) (db : DB) :
    ((∃ e, (handleGitRefs env j db).ret = some e) ∧ (handleGitRefs env j db).db = db) ∨
    ((handleGitRefs env j db).ret = none ∧ env.sendStartLog = none ∧ env.sendEndLog = none ∧
      ∃ refs rows, env.selectRefsResult = Except.ok refs ∧
        sendBatchGitRefs env.parseRepoID env.copyFrom refs = Except.ok rows ∧
        (handleGitRefs env j db).db =
          { gitRefs := deleteRepoRefs j.repoId db.gitRefs ++ rows, jobStatus := "DONE" }) := by
  obtain ⟨mkd, ra, ft, cr, ssl, srr, bt, rb, pr, de, cf, sst, sel, cm⟩ := env
  cases mkd with
  | error e => exact Or.inl ⟨⟨e, rfl⟩, rfl⟩
  | ok p =>
  cases ft with
  | error e => exact Or.inl ⟨⟨e, rfl⟩, rfl⟩
  | ok t =>
  cases cr with
  | error e => exact Or.inl ⟨⟨GoError.wrapped "git clone" e, rfl⟩, rfl⟩
  | ok u =>
  cases ssl with
  | some e => exact Or.inl ⟨⟨GoError.wrapped "log messages" e, rfl⟩, rfl⟩
  | none =>
  cases srr with
  | error e => exact Or.inl ⟨⟨e, rfl⟩, rfl⟩
  | ok refs =>
  cases bt with
  | some e => exact Or.inl ⟨⟨e, rfl⟩, rfl⟩
  | none =>
  cases de with
  | some e => exact Or.inl ⟨⟨e, rfl⟩, rfl⟩
  | none =>
  cases hsb : sendBatchGitRefs pr cf refs with
  | error e => refine Or.inl ⟨⟨e, ?_⟩, ?_⟩ <;> simp [handleGitRefs, hsb]
  | ok rows =>
  cases sst with
  | some e => refine Or.inl ⟨⟨e, ?_⟩, ?_⟩ <;> simp [handleGitRefs, hsb]
  | none =>
  cases sel with
  | some e => refine Or.inl ⟨⟨GoError.wrapped "log messages" e, ?_⟩, ?_⟩ <;>
      simp [handleGitRefs, hsb]
  | none =>
  cases cm with
  | some e => refine Or.inl ⟨⟨e, ?_⟩, ?_⟩ <;> simp [handleGitRefs, hsb]
  | none =>
    refine Or.inr ⟨?_, rfl, rfl, refs, rows, rfl, hsb, ?_⟩ <;> simp [handleGitRefs, hsb]

/-- A concrete job used by the witnesses. -/
def jW : Job :=
  { id := "job-1", repoId := "repo-1", repo := "acme/widgets", syncType := "GIT_REFS" }

/-- A concrete extracted branch ref whose optional remote and target are
absent. -/
def refW : Ref :=
  { FullName := ⟨true, "refs/heads/main"⟩, Hash := ⟨true, "abc123"⟩, Name := ⟨true, "main"⟩,
    Remote := ⟨false, ""⟩, Target := ⟨false, ""⟩, refType := ⟨true, "branch"⟩,
    TagCommitHash := ⟨false, ""⟩ }

/-- A pre-existing stored row for the witness repository. -/
def oldRowW : GitRefRow :=
  { repo_id := "repo-1", full_name := "refs/heads/old", name := "old", hash := some "ddd",
    remote := none, target := none, refType := some "branch", tag_commit_hash := none }

/-- Initial store for the witnesses: one stale row, job still RUNNING. -/
def dbW : DB := { gitRefs := [oldRowW], jobStatus := "RUNNING" }

/-- Environment in which every collaborator call succeeds. -/
def envOK : Env :=
  { mkdirTemp := Except.ok "/tmp/mergestat-repo-1", removeAll := none,
    fetchToken := Except.ok "gh-token", cloneRepo := Except.ok (), sendStartLog := none,
    selectRefsResult := Except.ok [refW], beginTx := none, rollback := none,
    parseRepoID := Except.ok "repo-1", deleteExec := none, copyFrom := none,
    setSyncJobStatus := none, sendEndLog := none, commit := none }

/-- C1: if any step inside the reconciliation transaction fails — the
DELETE of the repository's existing rows, the bulk insert performed by
`sendBatchGitRefs`, or the job-status update — the handler returns exactly
that error, the published store (ref rows and job status) is unchanged
because the deferred rollback discards the transaction, and the rollback
call appears in the trace. -/
theorem C1_tx_failure_rolls_back (env : Env) (j : Job) (db : DB) (p t : String)
    (refs : List Ref)
    (h1 : env.mkdirTemp = Except.ok p) (h2 : env.fetchToken = Except.ok t)
    (h3 : env.cloneRepo = Except.ok ()) (h4 : env.sendStartLog = none)
    (h5 : env.selectRefsResult = Except.ok refs) (h6 : env.beginTx = none) :
    (∀ e, env.deleteExec = some e →
      (handleGitRefs env j db).ret = some e ∧ (handleGitRefs env j db).db = db ∧
      Event.rollback ∈ (handleGitRefs env j db).trace) ∧
    (∀ e, env.deleteExec = none →
      sendBatchGitRefs env.parseRepoID env.copyFrom refs = Except.error e →
      (handleGitRefs env j db).ret = some e ∧ (handleGitRefs env j db).db = db ∧
      Event.rollback ∈ (handleGitRefs env j db).trace) ∧
    (∀ e rows, env.deleteExec = none →
      sendBatchGitRefs env.parseRepoID env.copyFrom refs = Except.ok rows →
      env.setSyncJobStatus = some e →
      (handleGitRefs env j db).ret = some e ∧ (handleGitRefs env j db).db = db ∧
      Event.rollback ∈ (handleGitRefs env j db).trace) := by
  refine ⟨fun e he => ?_, fun e he hsb => ?_, fun e rows he hsb hst => ?_⟩
  · simp [handleGitRefs, h1, h2, h3, h4, h5, h6, he]
  · simp [handleGitRefs, h1, h2, h3, h4, h5, h6, he, hsb]
  · simp [handleGitRefs, h1, h2, h3, h4, h5, h6, he, hsb, hst]

/-- C1 witness: with a failing DELETE, the handler on the concrete
fixtures returns that very error, leaves the store untouched and the
rollback ran. -/
theorem C1_witness :
    (handleGitRefs { envOK with deleteExec := some (GoError.base "delete failed") } jW dbW).ret
        = some (GoError.base "delete failed") ∧
    (handleGitRefs { envOK with deleteExec := some (GoError.base "delete failed") } jW dbW).db
        = dbW ∧
    Event.rollback ∈
      (handleGitRefs { envOK with deleteExec := some (GoError.base "delete failed") }
        jW dbW).trace :=
  (C1_tx_failure_rolls_back _ jW dbW "/tmp/mergestat-repo-1" "gh-token" [refW]
      rfl rfl rfl rfl rfl rfl).1 (GoError.base "delete failed") rfl

/-- C2: the DONE transition shares the transaction with the delete and
insert. Starting from a not-yet-DONE job, after the run either the job is
DONE and the repository's stored ref set is exactly the rows built from
the extracted refs, or the job is not DONE and the repository's stored ref
set is unchanged; no outcome pairs DONE with stale refs or replaced refs
with a non-DONE job. (The hypothesis on `parseRepoID` states the
round-trip behaviour of the external uuid library: re-parsing the job's
own repo-id string either yields that string or fails.) -/
theorem C2_done_atomic_with_replace (env : Env) (j : Job) (db : DB)
    (hdone : db.jobStatus ≠ "DONE")
    (hparse : env.parseRepoID = Except.ok j.repoId ∨ ∃ e, env.parseRepoID = Except.error e) :
    ((handleGitRefs env j db).ret = none ∧ (handleGitRefs env j db).db.jobStatus = "DONE" ∧
      ∃ refs, env.selectRefsResult = Except.ok refs ∧
        refsFor j.repoId (handleGitRefs env j db).db.gitRefs = refs.map (rowOfRef j.repoId)) ∨
    ((handleGitRefs env j db).ret ≠ none ∧ (handleGitRefs env j db).db.jobStatus ≠ "DONE" ∧
      refsFor j.repoId (handleGitRefs env j db).db.gitRefs = refsFor j.repoId db.gitRefs) := by
  rcases handleGitRefs_cases env j db with ⟨⟨e, he⟩, hdb⟩ | ⟨hret, _, _, refs, rows, hsel, hsb, hdb⟩
  · exact Or.inr ⟨by simp [he], by rw [hdb]; exact hdone, by rw [hdb]⟩
  · refine Or.inl ⟨hret, by rw [hdb], refs, hsel, ?_⟩
    rw [hdb]
    obtain ⟨hbi, -⟩ := sendBatchGitRefs_ok _ _ _ _ hsb
    rcases hparse with hp | ⟨e, hp⟩
    · rw [hp, buildInputs_ok] at hbi
      have hrows : rows = refs.map (rowOfRef j.repoId) := by simpa using hbi.symm
      show refsFor j.repoId (deleteRepoRefs j.repoId db.gitRefs ++ rows)
          = refs.map (rowOfRef j.repoId)
      rw [refsFor_append, refsFor_deleteRepoRefs, List.nil_append, hrows]
      refine refsFor_self _ _ (fun row hrow => ?_)
      obtain ⟨r, -, rfl⟩ := List.mem_map.mp hrow
      rfl
    · rcases refs with _ | ⟨r, rs⟩
      · have hr : rows = [] := by simpa [buildInputs] using hbi
        show refsFor j.repoId (deleteRepoRefs j.repoId db.gitRefs ++ rows) = List.map _ []
        simp [hr, refsFor_append, refsFor_deleteRepoRefs]
      · rw [hp, buildInputs_error] at hbi
        exact absurd hbi (by simp)

/-- C2 witness: on the concrete all-success fixtures the left branch
holds: the job becomes DONE and the stored ref set for the repository is
the single freshly extracted row. -/
theorem C2_witness :
    ((handleGitRefs envOK jW dbW).ret = none ∧
      (handleGitRefs envOK jW dbW).db.jobStatus = "DONE" ∧
      ∃ refs, envOK.selectRefsResult = Except.ok refs ∧
        refsFor jW.repoId (handleGitRefs envOK jW dbW).db.gitRefs
          = refs.map (rowOfRef jW.repoId)) ∨
    ((handleGitRefs envOK jW dbW).ret ≠ none ∧
      (handleGitRefs envOK jW dbW).db.jobStatus ≠ "DONE" ∧
      refsFor jW.repoId (handleGitRefs envOK jW dbW).db.gitRefs
        = refsFor jW.repoId dbW.gitRefs) :=
  C2_done_atomic_with_replace envOK jW dbW (by decide) (Or.inl rfl)

/-- A raw annotated tag row: the ref's own hash is the tag object `T`, and
`COMMIT_FROM_TAG` resolves it to commit `C`. -/
def rawTagW : RawRef :=
  { FullName := ⟨true, "refs/tags/v1.0"⟩, Hash := ⟨true, "tagobj-T"⟩, Name := ⟨true, "v1.0"⟩,
    Remote := ⟨false, ""⟩, Target := ⟨false, ""⟩, refType := ⟨true, "tag"⟩,
    commitFromTag := some "commit-C" }

/-- A raw branch row, for which `COMMIT_FROM_TAG` yields nothing. -/
def rawBranchW : RawRef :=
  { FullName := ⟨true, "refs/heads/main"⟩, Hash := ⟨true, "abc123"⟩, Name := ⟨true, "main"⟩,
    Remote := ⟨false, ""⟩, Target := ⟨false, ""⟩, refType := ⟨true, "branch"⟩,
    commitFromTag := none }

/-- C3: for an extracted reference of type 'tag', `tag_commit_hash` equals
the commit the tag object resolves to when `COMMIT_FROM_TAG` yields one
(annotated tag), and falls back to the ref's raw `hash` column when the
resolution is NULL (lightweight tag, where the raw hash is the commit). -/
theorem C3_tag_resolution (r : RawRef)
    (h1 : r.refType.valid = true) (h2 : r.refType.string = "tag") :
    (∀ c, r.commitFromTag = some c → (selectRefs r).TagCommitHash = ⟨true, c⟩) ∧
    (r.commitFromTag = none → (selectRefs r).TagCommitHash = r.Hash) := by
  constructor
  · intro c hc
    simp [selectRefs, caseTagCommitHash, sqlCoalesce, h1, h2, hc]
  · intro hc
    simp [selectRefs, caseTagCommitHash, sqlCoalesce, h1, h2, hc]

/-- C3 witness: the annotated tag `v1.0` pointing at commit `C` through
tag object `T` extracts with `tag_commit_hash = C`, not `T`. -/
theorem C3_witness : (selectRefs rawTagW).TagCommitHash = ⟨true, "commit-C"⟩ :=
  (C3_tag_resolution rawTagW rfl rfl).1 "commit-C" rfl

/-- C10: for every extracted reference whose type is not 'tag' — including
a NULL type — the CASE expression has no matching arm and no ELSE branch,
so `tag_commit_hash` is NULL. -/
theorem C10_non_tag_null (r : RawRef)
    (h : ¬(r.refType.valid = true ∧ r.refType.string = "tag")) :
    (selectRefs r).TagCommitHash = ⟨false, ""⟩ := by
  show caseTagCommitHash r.refType r.commitFromTag r.Hash = ⟨false, ""⟩
  unfold caseTagCommitHash
  rw [if_neg]
  simp only [Bool.and_eq_true, beq_iff_eq]
  exact h

/-- C10 witness: a branch ref extracts with a NULL `tag_commit_hash`. -/
theorem C10_witness : (selectRefs rawBranchW).TagCommitHash = ⟨false, ""⟩ :=
  C10_non_tag_null rawBranchW (by decide)

/-- C4: the rows a successful `sendBatchGitRefs` inserts are exactly the
built rows of the batch, and in a built row each optional column (hash,
remote, target, type, tag_commit_hash) is SQL NULL (`none`) exactly when
the field is absent, and the original string otherwise — absence is never
encoded as an empty string, so absent `remote` and `target` round-trip as
explicit absence. -/
theorem C4_null_fields (parse : Except GoError String) (copyErr : Option GoError)
    (batch : List Ref) (rows : List GitRefRow) (repoID : String)
    (hp : parse = Except.ok repoID)
    (h : sendBatchGitRefs parse copyErr batch = Except.ok rows) :
    rows = batch.map (rowOfRef repoID) ∧
    ∀ r ∈ batch,
      (r.Hash.valid = false → (rowOfRef repoID r).hash = none) ∧
      (r.Hash.valid = true → (rowOfRef repoID r).hash = some r.Hash.string) ∧
      (r.Remote.valid = false → (rowOfRef repoID r).remote = none) ∧
      (r.Remote.valid = true → (rowOfRef repoID r).remote = some r.Remote.string) ∧
      (r.Target.valid = false → (rowOfRef repoID r).target = none) ∧
      (r.Target.valid = true → (rowOfRef repoID r).target = some r.Target.string) ∧
      (r.refType.valid = false → (rowOfRef repoID r).refType = none) ∧
      (r.refType.valid = true → (rowOfRef repoID r).refType = some r.refType.string) ∧
      (r.TagCommitHash.valid = false → (rowOfRef repoID r).tag_commit_hash = none) ∧
      (r.TagCommitHash.valid = true →
        (rowOfRef repoID r).tag_commit_hash = some r.TagCommitHash.string) := by
  obtain ⟨hbi, -⟩ := sendBatchGitRefs_ok _ _ _ _ h
  rw [hp, buildInputs_ok] at hbi
  refine ⟨by simpa using hbi.symm, fun r hr => ?_⟩
  refine ⟨fun hv => ?_, fun hv => ?_, fun hv => ?_, fun hv => ?_, fun hv => ?_, fun hv => ?_,
    fun hv => ?_, fun hv => ?_, fun hv => ?_, fun hv => ?_⟩ <;> simp [rowOfRef, hv]

/-- C4 witness: the concrete ref with absent remote and target is stored
with explicit NULL remote and target. -/
theorem C4_witness :
    (rowOfRef "repo-1" refW).remote = none ∧ (rowOfRef "repo-1" refW).target = none :=
  have h := C4_null_fields (Except.ok "repo-1") none [refW] [rowOfRef "repo-1" refW]
    "repo-1" rfl rfl
  ⟨((h.2 refW (by simp)).2.2.1) rfl, ((h.2 refW (by simp)).2.2.2.2.1) rfl⟩

/-- C5: once the temp workspace was created, every exit path of the
handler — success and each error kind — performs the cleanup exactly once,
as the final action of the run; and a failing removal is only logged (it
becomes the last warning) without changing the returned error or the
published database state. -/
theorem C5_cleanup_exactly_once (env : Env) (j : Job) (db : DB) (p : String)
    (h : env.mkdirTemp = Except.ok p) :
    (handleGitRefs env j db).trace.count Event.removeAll = 1 ∧
    (handleGitRefs env j db).trace.getLast? = some Event.removeAll ∧
    (∀ e, (handleGitRefs { env with removeAll := some e } j db).ret
            = (handleGitRefs { env with removeAll := none } j db).ret ∧
          (handleGitRefs { env with removeAll := some e } j db).db
            = (handleGitRefs { env with removeAll := none } j db).db ∧
          (handleGitRefs { env with removeAll := some e } j db).warnings
            = (handleGitRefs { env with removeAll := none } j db).warnings ++ [e]) := by
  cases h2 : env.fetchToken with
  | error e2 => simp [handleGitRefs, h, h2, warnList]
  | ok t =>
  cases h3 : env.cloneRepo with
  | error e3 => simp [handleGitRefs, h, h2, h3, warnList]
  | ok u =>
  cases h4 : env.sendStartLog with
  | some e4 => simp [handleGitRefs, h, h2, h3, h4, warnList]
  | none =>
  cases h5 : env.selectRefsResult with
  | error e5 => simp [handleGitRefs, h, h2, h3, h4, h5, warnList]
  | ok refs =>
  cases h6 : env.beginTx with
  | some e6 => simp [handleGitRefs, h, h2, h3, h4, h5, h6, warnList]
  | none =>
  cases h7 : env.deleteExec with
  | some e7 => simp [handleGitRefs, h, h2, h3, h4, h5, h6, h7, warnList]
  | none =>
  cases h8 : sendBatchGitRefs env.parseRepoID env.copyFrom refs with
  | error e8 => simp [handleGitRefs, h, h2, h3, h4, h5, h6, h7, h8, warnList]
  | ok rows =>
  cases h9 : env.setSyncJobStatus with
  | some e9 => simp [handleGitRefs, h, h2, h3, h4, h5, h6, h7, h8, h9, warnList]
  | none =>
  cases h10 : env.sendEndLog with
  | some e10 => simp [handleGitRefs, h, h2, h3, h4, h5, h6, h7, h8, h9, h10, warnList]
  | none =>
  cases h11 : env.commit with
  | some e11 => simp [handleGitRefs, h, h2, h3, h4, h5, h6, h7, h8, h9, h10, h11, warnList]
  | none => simp [handleGitRefs, h, h2, h3, h4, h5, h6, h7, h8, h9, h10, h11, warnList]

/-- C5 witness: on the all-success fixtures the cleanup runs exactly once
and last, and a forced cleanup failure changes only the warning log. -/
theorem C5_witness :
    (handleGitRefs envOK jW dbW).trace.count Event.removeAll = 1 ∧
    (handleGitRefs envOK jW dbW).trace.getLast? = some Event.removeAll ∧
    (handleGitRefs { envOK with removeAll := some (GoError.base "cleanup failed") } jW dbW).ret
      = (handleGitRefs { envOK with removeAll := none } jW dbW).ret ∧
    (handleGitRefs { envOK with removeAll := some (GoError.base "cleanup failed") } jW dbW).db
      = (handleGitRefs { envOK with removeAll := none } jW dbW).db ∧
    (handleGitRefs { envOK with removeAll := some (GoError.base "cleanup failed") } jW dbW).warnings
      = (handleGitRefs { envOK with removeAll := none } jW dbW).warnings
          ++ [GoError.base "cleanup failed"] :=
  have h := C5_cleanup_exactly_once envOK jW dbW "/tmp/mergestat-repo-1" rfl
  ⟨h.1, h.2.1, h.2.2 (GoError.base "cleanup failed")⟩

/-- C6 counterexample: with a failing temp-dir creation on concrete
fixtures, the handler returns the collaborator's error exactly as-is (line
84 of the source is a bare `return err`) — no wrapping of any kind, hence
no job/repository context — refuting the claim that every error aborting
the job is wrapped before being returned. -/
theorem C6_counterexample :
    (handleGitRefs { envOK with mkdirTemp := Except.error (GoError.base "mkdir failed") }
        jW dbW).ret = some (GoError.base "mkdir failed") ∧
    (GoError.base "mkdir failed").isWrapped = false := ⟨rfl, rfl⟩

/-- C6 amended: every failing step aborts the job at once and its error is
returned to the caller, with no internal retries (no external action is
performed twice in one run); but only the clone error (wrapped with
operation context "git clone") and the two log-batch errors (wrapped with
"log messages") carry any added context — the errors of temp-dir
creation, token fetch, extraction, transaction begin, the DELETE, the
bulk insert, the status update and the commit are returned unchanged. -/
theorem C6_amended_no_retry_wrap (env : Env) (j : Job) (db : DB) :
    (handleGitRefs env j db).trace.Nodup ∧
    (∀ e, env.mkdirTemp = Except.error e → (handleGitRefs env j db).ret = some e) ∧
    (∀ e p, env.mkdirTemp = Except.ok p → env.fetchToken = Except.error e →
      (handleGitRefs env j db).ret = some e) ∧
    (∀ e p t, env.mkdirTemp = Except.ok p → env.fetchToken = Except.ok t →
      env.cloneRepo = Except.error e →
      (handleGitRefs env j db).ret = some (GoError.wrapped "git clone" e)) ∧
    (∀ e p t, env.mkdirTemp = Except.ok p → env.fetchToken = Except.ok t →
      env.cloneRepo = Except.ok () → env.sendStartLog = some e →
      (handleGitRefs env j db).ret = some (GoError.wrapped "log messages" e)) ∧
    (∀ e p t, env.mkdirTemp = Except.ok p → env.fetchToken = Except.ok t →
      env.cloneRepo = Except.ok () → env.sendStartLog = none →
      env.selectRefsResult = Except.error e → (handleGitRefs env j db).ret = some e) ∧
    (∀ e p t refs, env.mkdirTemp = Except.ok p → env.fetchToken = Except.ok t →
      env.cloneRepo = Except.ok () → env.sendStartLog = none →
      env.selectRefsResult = Except.ok refs → env.beginTx = some e →
      (handleGitRefs env j db).ret = some e) ∧
    (∀ e p t refs, env.mkdirTemp = Except.ok p → env.fetchToken = Except.ok t →
      env.cloneRepo = Except.ok () → env.sendStartLog = none →
      env.selectRefsResult = Except.ok refs → env.beginTx = none →
      env.deleteExec = some e → (handleGitRefs env j db).ret = some e) ∧
    (∀ e p t refs, env.mkdirTemp = Except.ok p → env.fetchToken = Except.ok t →
      env.cloneRepo = Except.ok () → env.sendStartLog = none →
      env.selectRefsResult = Except.ok refs → env.beginTx = none →
      env.deleteExec = none →
      sendBatchGitRefs env.parseRepoID env.copyFrom refs = Except.error e →
      (handleGitRefs env j db).ret = some e) ∧
    (∀ e p t refs rows, env.mkdirTemp = Except.ok p → env.fetchToken = Except.ok t →
      env.cloneRepo = Except.ok () → env.sendStartLog = none →
      env.selectRefsResult = Except.ok refs → env.beginTx = none →
      env.deleteExec = none →
      sendBatchGitRefs env.parseRepoID env.copyFrom refs = Except.ok rows →
      env.setSyncJobStatus = some e → (handleGitRefs env j db).ret = some e) ∧
    (∀ e p t refs rows, env.mkdirTemp = Except.ok p → env.fetchToken = Except.ok t →
      env.cloneRepo = Except.ok () → env.sendStartLog = none →
      env.selectRefsResult = Except.ok refs → env.beginTx = none →
      env.deleteExec = none →
      sendBatchGitRefs env.parseRepoID env.copyFrom refs = Except.ok rows →
      env.setSyncJobStatus = none → env.sendEndLog = some e →
      (handleGitRefs env j db).ret = some (GoError.wrapped "log messages" e)) ∧
    (∀ e p t refs rows, env.mkdirTemp = Except.ok p → env.fetchToken = Except.ok t →
      env.cloneRepo = Except.ok () → env.sendStartLog = none →
      env.selectRefsResult = Except.ok refs → env.beginTx = none →
      env.deleteExec = none →
      sendBatchGitRefs env.parseRepoID env.copyFrom refs = Except.ok rows →
      env.setSyncJobStatus = none → env.sendEndLog = none → env.commit = some e →
      (handleGitRefs env j db).ret = some e) := by
  refine ⟨?_, ?_, ?_, ?_, ?_, ?_, ?_, ?_, ?_, ?_, ?_, ?_⟩
  · cases h1 : env.mkdirTemp with
    | error e1 => simp [handleGitRefs, h1]
    | ok p =>
    cases h2 : env.fetchToken with
    | error e2 => simp [handleGitRefs, h1, h2]
    | ok t =>
    cases h3 : env.cloneRepo with
    | error e3 => simp [handleGitRefs, h1, h2, h3]
    | ok u =>
    cases h4 : env.sendStartLog with
    | some e4 => simp [handleGitRefs, h1, h2, h3, h4]
    | none =>
    cases h5 : env.selectRefsResult with
    | error e5 => simp [handleGitRefs, h1, h2, h3, h4, h5]
    | ok refs =>
    cases h6 : env.beginTx with
    | some e6 => simp [handleGitRefs, h1, h2, h3, h4, h5, h6]
    | none =>
    cases h7 : env.deleteExec with
    | some e7 => simp [handleGitRefs, h1, h2, h3, h4, h5, h6, h7]
    | none =>
    cases h8 : sendBatchGitRefs env.parseRepoID env.copyFrom refs with
    | error e8 => simp [handleGitRefs, h1, h2, h3, h4, h5, h6, h7, h8]
    | ok rows =>
    cases h9 : env.setSyncJobStatus with
    | some e9 => simp [handleGitRefs, h1, h2, h3, h4, h5, h6, h7, h8, h9]
    | none =>
    cases h10 : env.sendEndLog with
    | some e10 => simp [handleGitRefs, h1, h2, h3, h4, h5, h6, h7, h8, h9, h10]
    | none =>
    cases h11 : env.commit with
    | some e11 => simp [handleGitRefs, h1, h2, h3, h4, h5, h6, h7, h8, h9, h10, h11]
    | none => simp [handleGitRefs, h1, h2, h3, h4, h5, h6, h7, h8, h9, h10, h11]
  · intro e he
    simp [handleGitRefs, he]
  · intro e p h1 h2
    simp [handleGitRefs, h1, h2]
  · intro e p t h1 h2 h3
    simp [handleGitRefs, h1, h2, h3]
  · intro e p t h1 h2 h3 h4
    simp [handleGitRefs, h1, h2, h3, h4]
  · intro e p t h1 h2 h3 h4 h5
    simp [handleGitRefs, h1, h2, h3, h4, h5]
  · intro e p t refs h1 h2 h3 h4 h5 h6
    simp [handleGitRefs, h1, h2, h3, h4, h5, h6]
  · intro e p t refs h1 h2 h3 h4 h5 h6 h7
    simp [handleGitRefs, h1, h2, h3, h4, h5, h6, h7]
  · intro e p t refs h1 h2 h3 h4 h5 h6 h7 h8
    simp [handleGitRefs, h1, h2, h3, h4, h5, h6, h7, h8]
  · intro e p t refs rows h1 h2 h3 h4 h5 h6 h7 h8 h9
    simp [handleGitRefs, h1, h2, h3, h4, h5, h6, h7, h8, h9]
  · intro e p t refs rows h1 h2 h3 h4 h5 h6 h7 h8 h9 h10
    simp [handleGitRefs, h1, h2, h3, h4, h5, h6, h7, h8, h9, h10]
  · intro e p t refs rows h1 h2 h3 h4 h5 h6 h7 h8 h9 h10 h11
    simp [handleGitRefs, h1, h2, h3, h4, h5, h6, h7, h8, h9, h10, h11]

/-- C6 amended witness: on the concrete fixtures, a failing extraction
query and a failing commit are each propagated to the caller unchanged,
while a failing completion send comes back wrapped with "log messages". -/
theorem C6_amended_witness :
    (handleGitRefs { envOK with selectRefsResult := Except.error (GoError.base "query failed") }
        jW dbW).ret = some (GoError.base "query failed") ∧
    (handleGitRefs { envOK with commit := some (GoError.base "commit failed") } jW dbW).ret
      = some (GoError.base "commit failed") ∧
    (handleGitRefs { envOK with sendEndLog := some (GoError.base "sink down") } jW dbW).ret
      = some (GoError.wrapped "log messages" (GoError.base "sink down")) :=
  ⟨(C6_amended_no_retry_wrap
      { envOK with selectRefsResult := Except.error (GoError.base "query failed") } jW dbW
    ).2.2.2.2.2.1 (GoError.base "query failed") "/tmp/mergestat-repo-1" "gh-token"
      rfl rfl rfl rfl rfl,
   (C6_amended_no_retry_wrap
      { envOK with commit := some (GoError.base "commit failed") } jW dbW
    ).2.2.2.2.2.2.2.2.2.2.2 (GoError.base "commit failed") "/tmp/mergestat-repo-1" "gh-token"
      [refW] [rowOfRef "repo-1" refW] rfl rfl rfl rfl rfl rfl rfl rfl rfl rfl rfl,
   (C6_amended_no_retry_wrap
      { envOK with sendEndLog := some (GoError.base "sink down") } jW dbW
    ).2.2.2.2.2.2.2.2.2.2.1 (GoError.base "sink down") "/tmp/mergestat-repo-1" "gh-token"
      [refW] [rowOfRef "repo-1" refW] rfl rfl rfl rfl rfl rfl rfl rfl rfl rfl⟩

/-- C7: a failed log-batch send is never swallowed: a nil-returning run
requires both the start send and the completion send to have succeeded,
and whenever either send is reached and fails the handler returns its
error (wrapped as "log messages"), so the job fails. -/
theorem C7_log_failure_fails_job (env : Env) (j : Job) (db : DB) :
    ((handleGitRefs env j db).ret = none → env.sendStartLog = none ∧ env.sendEndLog = none) ∧
    (∀ e p t, env.mkdirTemp = Except.ok p → env.fetchToken = Except.ok t →
      env.cloneRepo = Except.ok () → env.sendStartLog = some e →
      (handleGitRefs env j db).ret = some (GoError.wrapped "log messages" e)) ∧
    (∀ e p t refs rows, env.mkdirTemp = Except.ok p → env.fetchToken = Except.ok t →
      env.cloneRepo = Except.ok () → env.sendStartLog = none →
      env.selectRefsResult = Except.ok refs → env.beginTx = none → env.deleteExec = none →
      sendBatchGitRefs env.parseRepoID env.copyFrom refs = Except.ok rows →
      env.setSyncJobStatus = none → env.sendEndLog = some e →
      (handleGitRefs env j db).ret = some (GoError.wrapped "log messages" e)) := by
  refine ⟨?_, ?_, ?_⟩
  · intro hret
    rcases handleGitRefs_cases env j db with ⟨⟨e, he⟩, -⟩ | ⟨-, hs, hse, -⟩
    · rw [hret] at he
      exact absurd he (by simp)
    · exact ⟨hs, hse⟩
  · intro e p t h1 h2 h3 h4
    simp [handleGitRefs, h1, h2, h3, h4]
  · intro e p t refs rows h1 h2 h3 h4 h5 h6 h7 h8 h9 h10
    simp [handleGitRefs, h1, h2, h3, h4, h5, h6, h7, h8, h9, h10]

/-- C7 witness: a failing start-announcement send on the concrete fixtures
makes the handler return the wrapped sink error. -/
theorem C7_witness :
    (handleGitRefs { envOK with sendStartLog := some (GoError.base "log sink down") } jW dbW).ret
      = some (GoError.wrapped "log messages" (GoError.base "log sink down")) :=
  (C7_log_failure_fails_job { envOK with sendStartLog := some (GoError.base "log sink down") }
      jW dbW).2.1 (GoError.base "log sink down") "/tmp/mergestat-repo-1" "gh-token" rfl rfl rfl rfl

/-- C8: a repository whose extraction yields zero refs does not fail the
job: the transaction still performs the DELETE and the (empty) bulk
insert, the status update and the commit run, the handler returns nil, the
job is DONE, and the repository's stored ref set ends empty. -/
theorem C8_empty_repo (env : Env) (j : Job) (db : DB) (p t : String)
    (h1 : env.mkdirTemp = Except.ok p) (h2 : env.fetchToken = Except.ok t)
    (h3 : env.cloneRepo = Except.ok ()) (h4 : env.sendStartLog = none)
    (h5 : env.selectRefsResult = Except.ok []) (h6 : env.beginTx = none)
    (h7 : env.deleteExec = none) (h8 : env.copyFrom = none)
    (h9 : env.setSyncJobStatus = none) (h10 : env.sendEndLog = none)
    (h11 : env.commit = none) :
    (handleGitRefs env j db).ret = none ∧
    (handleGitRefs env j db).db.jobStatus = "DONE" ∧
    refsFor j.repoId (handleGitRefs env j db).db.gitRefs = [] ∧
    Event.txDelete ∈ (handleGitRefs env j db).trace ∧
    Event.sendBatch ∈ (handleGitRefs env j db).trace ∧
    Event.commit ∈ (handleGitRefs env j db).trace := by
  have hsb : sendBatchGitRefs env.parseRepoID env.copyFrom [] = Except.ok [] := by
    simp [sendBatchGitRefs, buildInputs, h8]
  refine ⟨?_, ?_, ?_, ?_, ?_, ?_⟩ <;>
    simp [handleGitRefs, h1, h2, h3, h4, h5, h6, h7, hsb, h9, h10, h11,
      refsFor_append, refsFor_deleteRepoRefs]

/-- C8 witness: the concrete all-success fixtures with an empty extraction
leave the job DONE and the repository's stored ref set empty. -/
theorem C8_witness :
    (handleGitRefs { envOK with selectRefsResult := Except.ok [] } jW dbW).ret = none ∧
    (handleGitRefs { envOK with selectRefsResult := Except.ok [] } jW dbW).db.jobStatus
      = "DONE" ∧
    refsFor jW.repoId
      (handleGitRefs { envOK with selectRefsResult := Except.ok [] } jW dbW).db.gitRefs = [] ∧
    Event.txDelete
      ∈ (handleGitRefs { envOK with selectRefsResult := Except.ok [] } jW dbW).trace ∧
    Event.sendBatch
      ∈ (handleGitRefs { envOK with selectRefsResult := Except.ok [] } jW dbW).trace ∧
    Event.commit
      ∈ (handleGitRefs { envOK with selectRefsResult := Except.ok [] } jW dbW).trace :=
  C8_empty_repo { envOK with selectRefsResult := Except.ok [] } jW dbW
    "/tmp/mergestat-repo-1" "gh-token" rfl rfl rfl rfl rfl rfl rfl rfl rfl rfl rfl

/-- C9: when the completion log send fails, the handler returns before the
commit, so the deferred rollback undoes the whole reconciliation — the
published ref rows and job status are untouched — even though the delete,
the bulk insert and the status update had all executed inside the
transaction. -/
theorem C9_endlog_failure_rolls_back (env : Env) (j : Job) (db : DB) (p t : String)
    (refs : List Ref) (rows : List GitRefRow) (e : GoError)
    (h1 : env.mkdirTemp = Except.ok p) (h2 : env.fetchToken = Except.ok t)
    (h3 : env.cloneRepo = Except.ok ()) (h4 : env.sendStartLog = none)
    (h5 : env.selectRefsResult = Except.ok refs) (h6 : env.beginTx = none)
    (h7 : env.deleteExec = none)
    (h8 : sendBatchGitRefs env.parseRepoID env.copyFrom refs = Except.ok rows)
    (h9 : env.setSyncJobStatus = none) (h10 : env.sendEndLog = some e) :
    (handleGitRefs env j db).ret = some (GoError.wrapped "log messages" e) ∧
    (handleGitRefs env j db).db = db ∧
    Event.commit ∉ (handleGitRefs env j db).trace ∧
    Event.rollback ∈ (handleGitRefs env j db).trace ∧
    Event.txDelete ∈ (handleGitRefs env j db).trace ∧
    Event.sendBatch ∈ (handleGitRefs env j db).trace ∧
    Event.setStatus ∈ (handleGitRefs env j db).trace := by
  refine ⟨?_, ?_, ?_, ?_, ?_, ?_, ?_⟩ <;>
    simp [handleGitRefs, h1, h2, h3, h4, h5, h6, h7, h8, h9, h10]

/-- C9 witness: a failing completion send on the concrete fixtures leaves
the store exactly as before the job, with no commit in the trace. -/
theorem C9_witness :
    (handleGitRefs { envOK with sendEndLog := some (GoError.base "log sink down") } jW dbW).ret
      = some (GoError.wrapped "log messages" (GoError.base "log sink down")) ∧
    (handleGitRefs { envOK with sendEndLog := some (GoError.base "log sink down") } jW dbW).db
      = dbW ∧
    Event.commit ∉
      (handleGitRefs { envOK with sendEndLog := some (GoError.base "log sink down") }
        jW dbW).trace ∧
    Event.rollback ∈
      (handleGitRefs { envOK with sendEndLog := some (GoError.base "log sink down") }
        jW dbW).trace ∧
    Event.txDelete ∈
      (handleGitRefs { envOK with sendEndLog := some (GoError.base "log sink down") }
        jW dbW).trace ∧
    Event.sendBatch ∈
      (handleGitRefs { envOK with sendEndLog := some (GoError.base "log sink down") }
        jW dbW).trace ∧
    Event.setStatus ∈
      (handleGitRefs { envOK with sendEndLog := some (GoError.base "log sink down") }
        jW dbW).trace :=
  C9_endlog_failure_rolls_back
    { envOK with sendEndLog := some (GoError.base "log sink down") } jW dbW
    "/tmp/mergestat-repo-1" "gh-token" [refW] [rowOfRef "repo-1" refW]
    (GoError.base "log sink down") rfl rfl rfl rfl rfl rfl rfl rfl rfl rfl
